import Mathlib

/-!
Shallow embedding of the Sam-Guard evaluation engine (TypeScript), covering:

* the decision model (`src/core/decision.ts`);
* the transaction-intent factory (`src/core/intent.ts`, the validating
  version exercised by `intent.test.ts`);
* the gate: synchronous `evaluate`, asynchronous `evaluateAsync`, the
  rule chain `runRules`, structured log entries, dry-run semantics and
  the built-in `rateLimit` sliding-window rule (`src/core/gate.ts`);
* the audit logger `AuditLogger.log` (`src/audit/logger.ts`).

Wall-clock reads (`Date.now()`) are passed in as explicit integer
parameters, the rate limiter's private `Map` state is passed explicitly,
and a JavaScript exception is modelled as an explicit outcome value.
Function totality models the "never throws past the boundary" behaviour
of `evaluate`/`evaluateAsync`/`log`.
-/

namespace SamGuard

/-- Decision: tagged union with exactly three variants
(`allow`, `block` with a mandatory reason, `require-approval` with an
optional reason), from `src/core/decision.ts`. -/
inductive Decision
  | allow
  | block (reason : String)
  | requireApproval (reason : Option String)
  deriving Repr, DecidableEq

/-- The `type` discriminant string of a decision object. -/
def Decision.type : Decision → String
  | .allow => "allow"
  | .block _ => "block"
  | .requireApproval _ => "require-approval"

/-- Factory `Decisions.allow()`. -/
def Decisions.allow : Decision := Decision.allow

/-- Factory `Decisions.block(reason)`. -/
def Decisions.block (reason : String) : Decision := Decision.block reason

/-- Factory `Decisions.requireApproval(reason?)`. -/
def Decisions.requireApproval (reason : Option String) : Decision :=
  Decision.requireApproval reason

/-- `isAllowed(decision)`: `decision.type === "allow"`. -/
def isAllowed (d : Decision) : Bool := d.type = "allow"

/-- `isBlocked(decision)`: `decision.type === "block"`. -/
def isBlocked (d : Decision) : Bool := d.type = "block"

/-- `requiresApproval(decision)`: `decision.type === "require-approval"`. -/
def requiresApproval (d : Decision) : Bool := d.type = "require-approval"

/-- The fixed `ToolType` enumeration. -/
inductive ToolType
  | exec
  | browser
  | http
  | write
  deriving Repr, DecidableEq

/-- Optional metadata attached to an intent (`IntentMetadata`).
Absent optional properties are modelled as `none`. -/
structure IntentMetadata where
  timestamp : Option Int
  sessionId : Option String
  reason : Option String
  deriving Repr, DecidableEq

/-- `TransactionIntent`. The opaque `payload` is never inspected by the
engine, so it is omitted from the embedding. -/
structure TransactionIntent where
  agentId : String
  tool : ToolType
  target : String
  metadata : Option IntentMetadata
  deriving Repr, DecidableEq

/-- The metadata object `{ timestamp: Date.now(), ...metadata }` built by
`createIntent`: the caller's fields override the fresh timestamp when
present. -/
def mergeMetadata (now : Int) : Option IntentMetadata → IntentMetadata
  | none => { timestamp := some now, sessionId := none, reason := none }
  | some m =>
    { timestamp := some (m.timestamp.getD now)
      sessionId := m.sessionId
      reason := m.reason }

/-- JavaScript `String.prototype.trim()`: whitespace removed from both
ends of the string. -/
def jsTrim (s : String) : String :=
  String.mk
    (((s.data.dropWhile Char.isWhitespace).reverse.dropWhile
        Char.isWhitespace).reverse)

/-- `createIntent(agentId, tool, target, payload?, metadata?)` from
`src/core/intent.ts`: throws (modelled as `Except.error`) when `agentId`
or `target` is empty or whitespace-only (`!s || s.trim() === ""`),
otherwise returns the intent with the trimmed strings. `Date.now()` is
the explicit `now` parameter. -/
def createIntent (agentId : String) (tool : ToolType) (target : String)
    (metadata : Option IntentMetadata) (now : Int) :
    Except String TransactionIntent :=
  if agentId = "" ∨ jsTrim agentId = "" then
    Except.error "createIntent: agentId must not be empty"
  else if target = "" ∨ jsTrim target = "" then
    Except.error "createIntent: target must not be empty"
  else
    Except.ok
      { agentId := jsTrim agentId
        tool := tool
        target := jsTrim target
        metadata := some (mergeMetadata now metadata) }

/-- Outcome of invoking one rule on an intent: the rule threw (carrying
`err.message` when the thrown value was an `Error` instance, `none`
otherwise), returned `null` (pass-through), or returned a decision. -/
inductive RuleOutcome
  | throws (errMsg : Option String)
  | pass
  | decided (d : Decision)
  deriving Repr, DecidableEq

/-- `Rule`: a function from `TransactionIntent` to `Decision | null`,
with throwing modelled as an explicit outcome. -/
abbrev Rule := TransactionIntent → RuleOutcome

/-- `AsyncRule`: same contract, awaited; rejection is the `throws`
outcome. -/
abbrev AsyncRule := TransactionIntent → RuleOutcome

/-- `LogLevel`. -/
inductive LogLevel
  | info
  | warn
  | error
  deriving Repr, DecidableEq

/-- `decisionToLevel`: `block` → error, `require-approval` → warn,
`allow` → info. -/
def decisionToLevel (d : Decision) : LogLevel :=
  if d.type = "block" then LogLevel.error
  else if d.type = "require-approval" then LogLevel.warn
  else LogLevel.info

/-- Structured audit `LogEntry` emitted after every evaluation. -/
structure LogEntry where
  timestamp : Int
  level : LogLevel
  agentId : String
  tool : ToolType
  target : String
  decision : Decision
  durationMs : Int
  dryRun : Bool
  deriving Repr, DecidableEq

/-- A constructed `Gate` (fields of the class after the constructor ran). -/
structure Gate where
  rules : List Rule
  defaultDecision : Decision
  dryRun : Bool
  hasLogger : Bool

/-- `GateConfig`: optional fields are `Option`; the logger callback is
modelled by its presence (the entry handed to it is returned by
`Gate.evaluate`). -/
structure GateConfig where
  rules : List Rule
  defaultDecision : Option Decision
  dryRun : Option Bool
  hasLogger : Bool

/-- The `Gate` constructor: `defaultDecision` falls back to
`Decisions.requireApproval("No rules matched")` and `dryRun` to `false`.
(The `Array.isArray(config.rules)` guard cannot fail in the typed
embedding, where `rules` is always a list.) -/
def Gate.ofConfig (config : GateConfig) : Gate :=
  { rules := config.rules
    defaultDecision :=
      config.defaultDecision.getD (Decisions.requireApproval (some "No rules matched"))
    dryRun := config.dryRun.getD false
    hasLogger := config.hasLogger }

/-- The `runRules` loop over a rule list, instrumented with the number of
rules actually invoked (a prefix of the list, invoked in order):
each rule is called inside a try/catch — a throw fails closed with
`block("Rule threw an error: " + reason)` where `reason` is
`err.message` for an `Error` and `"Rule error"` otherwise; the first
non-`null` result is returned; if the list is exhausted the default
decision is returned. -/
def runRulesFrom (defaultDecision : Decision) (i : TransactionIntent) :
    List Rule → Decision × Nat
  | [] => (defaultDecision, 0)
  | r :: rest =>
    match r i with
    | RuleOutcome.throws errMsg =>
      (Decisions.block ("Rule threw an error: " ++ errMsg.getD "Rule error"), 1)
    | RuleOutcome.decided d => (d, 1)
    | RuleOutcome.pass =>
      ((runRulesFrom defaultDecision i rest).1,
       (runRulesFrom defaultDecision i rest).2 + 1)

/-- `Gate.runRules(intent)`: the decision computed by the rule chain. -/
def Gate.runRules (g : Gate) (i : TransactionIntent) : Decision :=
  (runRulesFrom g.defaultDecision i g.rules).1

/-- Number of rules the chain invoked on this intent (instrumentation of
the same traversal). -/
def Gate.runRulesCount (g : Gate) (i : TransactionIntent) : Nat :=
  (runRulesFrom g.defaultDecision i g.rules).2

/-- `Gate.log(intent, decision, durationMs)`: the entry handed to the
configured logger, or `none` when no logger is configured. A throwing
logger is swallowed by the gate, so only the entry value matters.
`tLog` is the `Date.now()` read inside `log`. -/
def Gate.logEntry (g : Gate) (i : TransactionIntent) (decision : Decision)
    (durationMs tLog : Int) : Option LogEntry :=
  if g.hasLogger then
    some
      { timestamp := tLog
        level := decisionToLevel decision
        agentId := i.agentId
        tool := i.tool
        target := i.target
        decision := decision
        durationMs := durationMs
        dryRun := g.dryRun }
  else none

/-- Result of `Gate.evaluate`: the returned decision plus the log entry
handed to the logger (if one is configured). -/
structure EvalResult where
  decision : Decision
  logged : Option LogEntry
  deriving Repr, DecidableEq

/-- `Gate.evaluate(intent)`: run the rule chain, log the real decision,
then return it — except in dry-run mode, where `allow` is always
returned. `tStart` is the initial `Date.now()`, `tEnd` the read used for
the duration and the log timestamp. -/
def Gate.evaluate (g : Gate) (i : TransactionIntent) (tStart tEnd : Int) :
    EvalResult :=
  let decision := g.runRules i
  { decision := if g.dryRun then Decisions.allow else decision
    logged := g.logEntry i decision (tEnd - tStart) tEnd }

/-- Result of `Gate.evaluateAsync`: the returned decision, the log entry
handed to the logger, and the number of async rules actually awaited
(a prefix of the list, awaited strictly in order). -/
structure AsyncEvalResult where
  decision : Decision
  logged : Option LogEntry
  asyncInvoked : Nat
  deriving Repr, DecidableEq

/-- The async-rule loop of `evaluateAsync`, instrumented with the number
of async rules awaited: each rule is awaited inside a try/catch — a
throw/rejection fails closed with `block("Async rule threw: " + reason)`
(`reason` is `err.message` for an `Error`, `"Async rule error"`
otherwise); a non-`null` result short-circuits; an exhausted list falls
back to the default decision. -/
def runAsyncRules (defaultDecision : Decision) (i : TransactionIntent) :
    List AsyncRule → Decision × Nat
  | [] => (defaultDecision, 0)
  | r :: rest =>
    match r i with
    | RuleOutcome.throws errMsg =>
      (Decisions.block ("Async rule threw: " ++ errMsg.getD "Async rule error"), 1)
    | RuleOutcome.decided d => (d, 1)
    | RuleOutcome.pass =>
      ((runAsyncRules defaultDecision i rest).1,
       (runAsyncRules defaultDecision i rest).2 + 1)

/-- `Gate.evaluateAsync(intent, asyncRules)`: run the sync chain first;
if its result's type is not `"allow"` or there are no async rules, log
and return it (forced to `allow` in dry-run). Otherwise await the async
rules strictly in order; the decision they produce (first non-`null`
result, fail-closed block on throw, default decision when all pass) is
logged and returned (forced to `allow` in dry-run). -/
def Gate.evaluateAsync (g : Gate) (i : TransactionIntent)
    (asyncRules : List AsyncRule) (tStart tEnd : Int) : AsyncEvalResult :=
  let syncDecision := g.runRules i
  if syncDecision.type ≠ "allow" ∨ asyncRules.length = 0 then
    { decision := if g.dryRun then Decisions.allow else syncDecision
      logged := g.logEntry i syncDecision (tEnd - tStart) tEnd
      asyncInvoked := 0 }
  else
    let asyncOutcome := runAsyncRules g.defaultDecision i asyncRules
    { decision := if g.dryRun then Decisions.allow else asyncOutcome.1
      logged := g.logEntry i asyncOutcome.1 (tEnd - tStart) tEnd
      asyncInvoked := asyncOutcome.2 }

/-- The rate limiter's private `Map<string, number[]>` of key →
timestamp sequence; an absent key reads as the empty sequence
(`windows.get(key) ?? []`). -/
def RLState := String → List Int

/-- The map created empty at rule-construction time. -/
def rlEmpty : RLState := fun _ => []

/-- `windows.set(key, value)`. -/
def rlSet (st : RLState) (key : String) (v : List Int) : RLState :=
  fun k => if k = key then v else st k

/-- The limiter key: `agentId` when per-agent, else `"__global__"`. -/
def rateLimitKey (perAgent : Bool) (i : TransactionIntent) : String :=
  if perAgent then i.agentId else "__global__"

/-- The pruned window
`(windows.get(key) ?? []).filter((t) => now - t < windowMs)`. -/
def rlPruned (windowMs : Int) (st : RLState) (key : String) (now : Int) :
    List Int :=
  (st key).filter (fun t => decide (now - t < windowMs))

/-- `Math.ceil(num / den)` for a positive divisor. -/
def jsMathCeilDiv (num den : Int) : Int := -((-num).ediv den)

/-- The block reason
`` `Rate limit exceeded: ${maxCalls} calls per ${windowMs}ms. Retry after ${Math.ceil(retryAfterMs / 1000)}s.` ``. -/
def rateLimitBlockReason (maxCalls windowMs retryAfterMs : Int) : String :=
  "Rate limit exceeded: " ++ toString maxCalls ++ " calls per " ++
    toString windowMs ++ "ms. Retry after " ++
    toString (jsMathCeilDiv retryAfterMs 1000) ++ "s."

/-- The construction-time guards of `rateLimit(options)`:
`maxCalls <= 0` and `windowMs <= 0` throw. -/
def rateLimitMk (maxCalls windowMs : Int) : Except String Unit :=
  if maxCalls ≤ 0 then Except.error "rateLimit: maxCalls must be > 0"
  else if windowMs ≤ 0 then Except.error "rateLimit: windowMs must be > 0"
  else Except.ok ()

/-- One invocation of the closure returned by `rateLimit`, with the
private map passed explicitly: prune the key's window; if the pruned
count has reached `maxCalls`, block (leaving the map untouched) with the
remaining-wait reason computed from the oldest remaining timestamp;
otherwise append `now`, store the pruned-plus-new sequence, and pass
through (`null`). -/
def rateLimitStep (maxCalls windowMs : Int) (perAgent : Bool)
    (st : RLState) (i : TransactionIntent) (now : Int) :
    Option Decision × RLState :=
  let key := rateLimitKey perAgent i
  let timestamps := rlPruned windowMs st key now
  if maxCalls ≤ (timestamps.length : Int) then
    let retryAfterMs := windowMs - (now - timestamps.headD 0)
    (some (Decisions.block (rateLimitBlockReason maxCalls windowMs retryAfterMs)), st)
  else
    (none, rlSet st key (timestamps ++ [now]))

/-- The `rateLimit` closure viewed as a `Rule` at a frozen map state and
clock reading: a `some` decision is returned, a `none` is the `null`
pass-through. -/
def rateLimitRule (maxCalls windowMs : Int) (perAgent : Bool)
    (st : RLState) (now : Int) : Rule :=
  fun i =>
    match (rateLimitStep maxCalls windowMs perAgent st i now).1 with
    | some d => RuleOutcome.decided d
    | none => RuleOutcome.pass

/-- The built-in `allowAll()` rule. -/
def allowAll : Rule := fun _ => RuleOutcome.decided Decisions.allow

/-- The built-in `blockExec()` rule. -/
def blockExec : Rule := fun i =>
  if i.tool = ToolType.exec then
    RuleOutcome.decided (Decisions.block "Shell execution blocked by policy")
  else RuleOutcome.pass

/-- The gate built by `createGate([rateLimit(options), allowAll()])`
(the configuration the repository's rate-limit tests use), at a frozen
limiter state and clock. -/
def rlGate (maxCalls windowMs : Int) (perAgent : Bool) (st : RLState)
    (now : Int) : Gate :=
  Gate.ofConfig
    { rules := [rateLimitRule maxCalls windowMs perAgent st now, allowAll]
      defaultDecision := none
      dryRun := none
      hasLogger := false }

/-- One `gate.evaluate` call on that gate together with the limiter
state it leaves behind. -/
def rlGateStep (maxCalls windowMs : Int) (perAgent : Bool) (st : RLState)
    (i : TransactionIntent) (now tEnd : Int) : Decision × RLState :=
  (((rlGate maxCalls windowMs perAgent st now).evaluate i now tEnd).decision,
   (rateLimitStep maxCalls windowMs perAgent st i now).2)

/-- The limiter state after a sequence of invocations (each an intent
with its clock reading), starting from the empty map. -/
def rateLimitRun (maxCalls windowMs : Int) (perAgent : Bool)
    (calls : List (TransactionIntent × Int)) : RLState :=
  calls.foldl
    (fun st c => (rateLimitStep maxCalls windowMs perAgent st c.1 c.2).2)
    rlEmpty

/-- A JavaScript thrown/rejected value: an `Error` instance carrying its
message, or any other value with its `String(...)` rendering. -/
inductive JsError
  | errorInst (message : String)
  | nonError (str : String)
  deriving Repr, DecidableEq

/-- `err instanceof Error ? err : new Error(String(err))`. -/
def toJsError : JsError → JsError
  | JsError.errorInst m => JsError.errorInst m
  | JsError.nonError s => JsError.errorInst s

/-- Behaviour of one `adapter.write(stored)` call: return normally,
throw synchronously, return a resolving promise, or return a rejecting
promise. -/
inductive WriteBehavior
  | ok
  | throwsSync (e : JsError)
  | asyncResolves
  | asyncRejects (e : JsError)
  deriving Repr, DecidableEq

/-- `AuditLogger` construction surface: whether a `tee` sink and an
`onError` callback were configured, and whether this tee invocation
throws. An absent `onError` defaults to a no-op. -/
structure AuditLoggerCfg where
  hasTee : Bool
  teeThrows : Bool
  hasOnError : Bool
  deriving Repr, DecidableEq

/-- `StoredLogEntry`: the log entry plus the freshly generated id
(`{ id: randomUUID(), ...entry }`). -/
structure StoredLogEntry where
  id : String
  entry : LogEntry
  deriving Repr, DecidableEq

/-- Observable outcome of one `AuditLogger.log(entry)` call:
`raised` is an exception escaping `log` (always `none`); `teeReceived`
the entry forwarded to the tee sink; `written` the record handed to the
adapter's `write`; `onErrorReceived` the error delivered to `this.onError`
(the configured callback or the default no-op); `onErrorCallbackReceived`
the error delivered to a *configured* `onError` callback. -/
structure LogCallResult where
  raised : Option JsError
  teeReceived : Option LogEntry
  written : Option StoredLogEntry
  onErrorReceived : Option JsError
  onErrorCallbackReceived : Option JsError
  deriving Repr, DecidableEq

/-- `AuditLogger.log(entry)` from `src/audit/logger.ts`: tee first
(errors silently ignored), build the stored record with a fresh id, then
`adapter.write(stored)` inside a try/catch; a synchronous throw or an
asynchronous rejection is coerced to an `Error` and routed to
`this.onError`, never re-thrown. `freshId` stands for `randomUUID()`. -/
def AuditLogger.log (cfg : AuditLoggerCfg) (entry : LogEntry)
    (freshId : String) (write : WriteBehavior) : LogCallResult :=
  let teeReceived : Option LogEntry := if cfg.hasTee then some entry else none
  let stored : StoredLogEntry := { id := freshId, entry := entry }
  let routed : Option JsError :=
    match write with
    | WriteBehavior.ok => none
    | WriteBehavior.asyncResolves => none
    | WriteBehavior.throwsSync e => some (toJsError e)
    | WriteBehavior.asyncRejects e => some (toJsError e)
  { raised := none
    teeReceived := teeReceived
    written := some stored
    onErrorReceived := routed
    onErrorCallbackReceived := if cfg.hasOnError then routed else none }

/-- A concrete intent (the `createIntent("agent-1", "exec", "ls")` of the
test suite). -/
def sampleIntent : TransactionIntent :=
  { agentId := "agent-1", tool := ToolType.exec, target := "ls", metadata := none }

/-- A rule that throws an `Error` with message `"boom"`. -/
def throwingRule : Rule := fun _ => RuleOutcome.throws (some "boom")

/-- An async rule that returns a block decision. -/
def asyncBlockRule : AsyncRule :=
  fun _ => RuleOutcome.decided (Decisions.block "async verdict")

/-- A concrete intent from a second agent. -/
def otherAgentIntent : TransactionIntent :=
  { agentId := "agent-2", tool := ToolType.exec, target := "ls", metadata := none }

/-- An `AuditLogger` configuration with only `onError` set. -/
def onErrorCfg : AuditLoggerCfg :=
  { hasTee := false, teeThrows := false, hasOnError := true }

/-- A concrete log entry. -/
def sampleEntry : LogEntry :=
  { timestamp := 0
    level := LogLevel.info
    agentId := "agent-1"
    tool := ToolType.http
    target := "https://api.example.com"
    decision := Decisions.allow
    durationMs := 1
    dryRun := false }

/-- Decisions returned by a sequence of `evaluate` calls on the
`[rateLimit(options), allowAll()]` gate, threading the limiter state. -/
def rlGateSeq (maxCalls windowMs : Int) (perAgent : Bool) :
    List (TransactionIntent × Int) → RLState → List Decision
  | [], _ => []
  | c :: rest, st =>
    (rlGateStep maxCalls windowMs perAgent st c.1 c.2 c.2).1 ::
      rlGateSeq maxCalls windowMs perAgent rest
        (rateLimitStep maxCalls windowMs perAgent st c.1 c.2).2

/-- Gate `createGate([])`: no rules, all defaults. -/
def emptyGate : Gate :=
  Gate.ofConfig
    { rules := [], defaultDecision := none, dryRun := none, hasLogger := false }

/-- Gate `createGate([blockExec(), allowAll()])`. -/
def blockExecAllowGate : Gate :=
  Gate.ofConfig
    { rules := [blockExec, allowAll], defaultDecision := none, dryRun := none
      hasLogger := false }

/-- Gate `createGate([throwingRule])`, enforcing. -/
def throwGate : Gate :=
  Gate.ofConfig
    { rules := [throwingRule], defaultDecision := none, dryRun := none
      hasLogger := false }

/-- Gate `createGate([throwingRule], { dryRun: true })`. -/
def dryThrowGate : Gate :=
  Gate.ofConfig
    { rules := [throwingRule], defaultDecision := none, dryRun := some true
      hasLogger := false }

/-- Gate `createGate([throwingRule], { dryRun: true, logger })`. -/
def dryThrowLogGate : Gate :=
  Gate.ofConfig
    { rules := [throwingRule], defaultDecision := none, dryRun := some true
      hasLogger := true }

/-- Gate `createGate([blockExec()], { dryRun: true, logger })`. -/
def dryBlockLogGate : Gate :=
  Gate.ofConfig
    { rules := [blockExec], defaultDecision := none, dryRun := some true
      hasLogger := true }

/-- Gate `createGate([allowAll()], { dryRun: true })`. -/
def dryAllowGate : Gate :=
  Gate.ofConfig
    { rules := [allowAll], defaultDecision := none, dryRun := some true
      hasLogger := false }

/-- Gate `createGate([allowAll()])`, enforcing. -/
def allowGate : Gate :=
  Gate.ofConfig
    { rules := [allowAll], defaultDecision := none, dryRun := none
      hasLogger := false }

theorem runRulesFrom_append_pass (d0 : Decision) (i : TransactionIntent)
    (pre rest : List Rule) (hpre : ∀ q ∈ pre, q i = RuleOutcome.pass) :
    runRulesFrom d0 i (pre ++ rest) =
      ((runRulesFrom d0 i rest).1, (runRulesFrom d0 i rest).2 + pre.length) := by
  induction pre with
  | nil => simp [runRulesFrom]
  | cons q pre ih =>
    have hq : q i = RuleOutcome.pass := hpre q (List.mem_cons_self q pre)
    have ih' := ih (fun p hp => hpre p (List.mem_cons_of_mem q hp))
    rw [List.cons_append]
    rw [show runRulesFrom d0 i (q :: (pre ++ rest)) =
        ((runRulesFrom d0 i (pre ++ rest)).1,
         (runRulesFrom d0 i (pre ++ rest)).2 + 1) from by simp [runRulesFrom, hq]]
    rw [ih']
    simp only [List.length_cons]
    exact Prod.ext rfl (by omega)

theorem runRulesFrom_first_decided (d0 : Decision) (i : TransactionIntent)
    (pre post : List Rule) (r : Rule) (d : Decision)
    (hpre : ∀ q ∈ pre, q i = RuleOutcome.pass)
    (hr : r i = RuleOutcome.decided d) :
    runRulesFrom d0 i (pre ++ r :: post) = (d, pre.length + 1) := by
  rw [runRulesFrom_append_pass d0 i pre (r :: post) hpre]
  simp only [runRulesFrom, hr]
  exact Prod.ext rfl (by omega)

theorem runRulesFrom_first_throws (d0 : Decision) (i : TransactionIntent)
    (pre post : List Rule) (r : Rule) (errMsg : Option String)
    (hpre : ∀ q ∈ pre, q i = RuleOutcome.pass)
    (hr : r i = RuleOutcome.throws errMsg) :
    runRulesFrom d0 i (pre ++ r :: post) =
      (Decisions.block ("Rule threw an error: " ++ errMsg.getD "Rule error"),
       pre.length + 1) := by
  rw [runRulesFrom_append_pass d0 i pre (r :: post) hpre]
  simp only [runRulesFrom, hr]
  exact Prod.ext rfl (by omega)

theorem runRulesFrom_all_pass (d0 : Decision) (i : TransactionIntent)
    (rules : List Rule) (h : ∀ q ∈ rules, q i = RuleOutcome.pass) :
    runRulesFrom d0 i rules = (d0, rules.length) := by
  have := runRulesFrom_append_pass d0 i rules [] h
  simpa [runRulesFrom] using this

theorem runAsyncRules_append_pass (d0 : Decision) (i : TransactionIntent)
    (pre rest : List AsyncRule) (hpre : ∀ q ∈ pre, q i = RuleOutcome.pass) :
    runAsyncRules d0 i (pre ++ rest) =
      ((runAsyncRules d0 i rest).1, (runAsyncRules d0 i rest).2 + pre.length) := by
  induction pre with
  | nil => simp [runAsyncRules]
  | cons q pre ih =>
    have hq : q i = RuleOutcome.pass := hpre q (List.mem_cons_self q pre)
    have ih' := ih (fun p hp => hpre p (List.mem_cons_of_mem q hp))
    rw [List.cons_append]
    rw [show runAsyncRules d0 i (q :: (pre ++ rest)) =
        ((runAsyncRules d0 i (pre ++ rest)).1,
         (runAsyncRules d0 i (pre ++ rest)).2 + 1) from by simp [runAsyncRules, hq]]
    rw [ih']
    simp only [List.length_cons]
    exact Prod.ext rfl (by omega)

theorem runAsyncRules_first_decided (d0 : Decision) (i : TransactionIntent)
    (pre post : List AsyncRule) (r : AsyncRule) (d : Decision)
    (hpre : ∀ q ∈ pre, q i = RuleOutcome.pass)
    (hr : r i = RuleOutcome.decided d) :
    runAsyncRules d0 i (pre ++ r :: post) = (d, pre.length + 1) := by
  rw [runAsyncRules_append_pass d0 i pre (r :: post) hpre]
  simp only [runAsyncRules, hr]
  exact Prod.ext rfl (by omega)

theorem runAsyncRules_all_pass (d0 : Decision) (i : TransactionIntent)
    (rules : List AsyncRule) (h : ∀ q ∈ rules, q i = RuleOutcome.pass) :
    runAsyncRules d0 i rules = (d0, rules.length) := by
  have := runAsyncRules_append_pass d0 i rules [] h
  simpa [runAsyncRules] using this

/-- C5 (counterexample): the default default decision of a gate is
`require-approval` with reason `"No rules matched"` (capital N), so the
claim's quoted reason `"no rules matched"` does not match the code. On
the gate built without a configured default, evaluating any intent
returns `requireApproval (some "No rules matched")`, which differs from
`requireApproval (some "no rules matched")`. -/
theorem evaluate_default_reason_counterexample :
    (emptyGate.evaluate sampleIntent 0 0).decision
        = Decisions.requireApproval (some "No rules matched") ∧
    (emptyGate.evaluate sampleIntent 0 0).decision
        ≠ Decisions.requireApproval (some "no rules matched") := by
  constructor
  · rfl
  · decide

/-- C5 (amended): `evaluate` traverses the configured rule list in
declaration order; the first rule returning a non-pass-through decision
determines the rule-chain result (and, for a non-dry-run gate, the
returned decision) and no later rule is invoked; if every rule passes
through, the configured default decision applies, which defaults to
require-approval with reason "No rules matched". -/
theorem evaluate_first_decisive_rule_wins :
    (∀ (g : Gate) (i : TransactionIntent) (pre post : List Rule) (r : Rule)
        (d : Decision),
        g.rules = pre ++ r :: post →
        (∀ q ∈ pre, q i = RuleOutcome.pass) →
        r i = RuleOutcome.decided d →
        g.runRules i = d ∧ g.runRulesCount i = pre.length + 1 ∧
        (g.dryRun = false → ∀ tStart tEnd : Int,
          (g.evaluate i tStart tEnd).decision = d)) ∧
    (∀ (g : Gate) (i : TransactionIntent),
        (∀ q ∈ g.rules, q i = RuleOutcome.pass) →
        g.runRules i = g.defaultDecision ∧
        (g.dryRun = false → ∀ tStart tEnd : Int,
          (g.evaluate i tStart tEnd).decision = g.defaultDecision)) ∧
    (∀ cfg : GateConfig, cfg.defaultDecision = none →
        (Gate.ofConfig cfg).defaultDecision
          = Decisions.requireApproval (some "No rules matched")) := by
  refine ⟨?_, ?_, ?_⟩
  · intro g i pre post r d hrules hpre hr
    have h1 : g.runRules i = d := by
      unfold Gate.runRules
      rw [hrules, runRulesFrom_first_decided _ _ _ _ _ _ hpre hr]
    have h2 : g.runRulesCount i = pre.length + 1 := by
      unfold Gate.runRulesCount
      rw [hrules, runRulesFrom_first_decided _ _ _ _ _ _ hpre hr]
    refine ⟨h1, h2, ?_⟩
    intro hdry tStart tEnd
    simp [Gate.evaluate, hdry, h1]
  · intro g i hall
    have h1 : g.runRules i = g.defaultDecision := by
      unfold Gate.runRules
      rw [runRulesFrom_all_pass _ _ _ hall]
    refine ⟨h1, ?_⟩
    intro hdry tStart tEnd
    simp [Gate.evaluate, hdry, h1]
  · intro cfg hcfg
    simp [Gate.ofConfig, hcfg]

/-- C5 (witness): on the gate `[blockExec, allowAll]`, the first rule
decides `block` for an exec intent and wins. -/
theorem evaluate_first_decisive_rule_wins_witness :
    blockExecAllowGate.runRules sampleIntent
      = Decisions.block "Shell execution blocked by policy" :=
  (evaluate_first_decisive_rule_wins.1
    blockExecAllowGate sampleIntent [] [allowAll] blockExec
    (Decisions.block "Shell execution blocked by policy")
    rfl (by simp) (by decide)).1

/-- C2 (counterexample): a gate configured with `dryRun: true` whose only
rule throws returns `allow` from `evaluate`, not a block decision, so the
claim fails for dry-run gates (dry-run overrides fail-closed on return). -/
theorem evaluate_throw_dryRun_counterexample :
    (dryThrowGate.evaluate sampleIntent 0 0).decision = Decisions.allow ∧
    (dryThrowGate.evaluate sampleIntent 0 0).decision.type ≠ "block" := by
  constructor
  · rfl
  · decide

/-- C2 (amended): for every gate with `dryRun` false, if the rule chain
reaches a rule that throws during `evaluate`, then `evaluate` returns a
block decision whose reason includes the underlying error's text
(`"Rule threw an error: " ++` the message, with `"Rule error"` for a
non-`Error` value), and iteration stops at the throwing rule (no later
rule is invoked). `evaluate` is a total function in this embedding, so
no exception reaches the caller. -/
theorem evaluate_rule_throw_fails_closed (g : Gate) (i : TransactionIntent)
    (pre post : List Rule) (r : Rule) (errMsg : Option String)
    (tStart tEnd : Int) (hdry : g.dryRun = false)
    (hrules : g.rules = pre ++ r :: post)
    (hpre : ∀ q ∈ pre, q i = RuleOutcome.pass)
    (hr : r i = RuleOutcome.throws errMsg) :
    (g.evaluate i tStart tEnd).decision
      = Decisions.block ("Rule threw an error: " ++ errMsg.getD "Rule error") ∧
    g.runRulesCount i = pre.length + 1 := by
  have h1 : g.runRules i
      = Decisions.block ("Rule threw an error: " ++ errMsg.getD "Rule error") := by
    unfold Gate.runRules
    rw [hrules, runRulesFrom_first_throws _ _ _ _ _ _ hpre hr]
  have h2 : g.runRulesCount i = pre.length + 1 := by
    unfold Gate.runRulesCount
    rw [hrules, runRulesFrom_first_throws _ _ _ _ _ _ hpre hr]
  exact ⟨by simp [Gate.evaluate, hdry, h1], h2⟩

/-- C2 (witness): a non-dry-run gate whose only rule throws `"boom"`
returns the fail-closed block carrying that text. -/
theorem evaluate_rule_throw_fails_closed_witness :
    (throwGate.evaluate sampleIntent 0 0).decision
      = Decisions.block "Rule threw an error: boom" :=
  (evaluate_rule_throw_fails_closed
    throwGate sampleIntent [] [] throwingRule (some "boom") 0 0
    rfl rfl (by simp) rfl).1

/-- C3: for every gate configured with `dryRun` true, `evaluate` returns
`allow` regardless of what the rules decide, while the entry passed to
the configured logger carries the real decision computed by the rule
chain and the `dryRun` flag set to true. -/
theorem evaluate_dryRun_allows_logs_real (g : Gate) (i : TransactionIntent)
    (tStart tEnd : Int) (hdry : g.dryRun = true) :
    (g.evaluate i tStart tEnd).decision = Decisions.allow ∧
    (g.hasLogger = true →
      (g.evaluate i tStart tEnd).logged = some
        { timestamp := tEnd
          level := decisionToLevel (g.runRules i)
          agentId := i.agentId
          tool := i.tool
          target := i.target
          decision := g.runRules i
          durationMs := tEnd - tStart
          dryRun := true }) := by
  constructor
  · simp [Gate.evaluate, hdry]
  · intro hlog
    simp [Gate.evaluate, Gate.logEntry, hlog, hdry]

/-- C3 (witness): a dry-run gate with `[blockExec]` and a logger returns
`allow` on an exec intent while logging the real block decision. -/
theorem evaluate_dryRun_allows_logs_real_witness :
    (dryBlockLogGate.evaluate sampleIntent 0 7).decision = Decisions.allow ∧
    (dryBlockLogGate.evaluate sampleIntent 0 7).logged
      = some
        { timestamp := 7
          level := LogLevel.error
          agentId := "agent-1"
          tool := ToolType.exec
          target := "ls"
          decision := Decisions.block "Shell execution blocked by policy"
          durationMs := 7
          dryRun := true } := by
  have h := evaluate_dryRun_allows_logs_real dryBlockLogGate sampleIntent 0 7 rfl
  exact ⟨h.1, h.2 rfl⟩

/-- C9: for every gate configured with `dryRun` true, `evaluate` returns
`allow` even when a reached rule throws — the fail-closed block decision
built from the rule's error is only logged, never returned. -/
theorem evaluate_dryRun_rule_throw_allows (g : Gate) (i : TransactionIntent)
    (pre post : List Rule) (r : Rule) (errMsg : Option String)
    (tStart tEnd : Int) (hdry : g.dryRun = true)
    (hrules : g.rules = pre ++ r :: post)
    (hpre : ∀ q ∈ pre, q i = RuleOutcome.pass)
    (hr : r i = RuleOutcome.throws errMsg) :
    (g.evaluate i tStart tEnd).decision = Decisions.allow ∧
    (g.hasLogger = true →
      (g.evaluate i tStart tEnd).logged = some
        { timestamp := tEnd
          level := LogLevel.error
          agentId := i.agentId
          tool := i.tool
          target := i.target
          decision := Decisions.block ("Rule threw an error: " ++ errMsg.getD "Rule error")
          durationMs := tEnd - tStart
          dryRun := true }) := by
  have h1 : g.runRules i
      = Decisions.block ("Rule threw an error: " ++ errMsg.getD "Rule error") := by
    unfold Gate.runRules
    rw [hrules, runRulesFrom_first_throws _ _ _ _ _ _ hpre hr]
  constructor
  · simp [Gate.evaluate, hdry]
  · intro hlog
    simp [Gate.evaluate, Gate.logEntry, hlog, hdry, h1, decisionToLevel,
      Decisions.block, Decision.type]

/-- C9 (witness): a dry-run gate with a logger whose only rule throws
`"boom"` returns `allow` and logs the fail-closed block. -/
theorem evaluate_dryRun_rule_throw_allows_witness :
    (dryThrowLogGate.evaluate sampleIntent 0 3).decision = Decisions.allow ∧
    (dryThrowLogGate.evaluate sampleIntent 0 3).logged
      = some
        { timestamp := 3
          level := LogLevel.error
          agentId := "agent-1"
          tool := ToolType.exec
          target := "ls"
          decision := Decisions.block "Rule threw an error: boom"
          durationMs := 3
          dryRun := true } := by
  have h := evaluate_dryRun_rule_throw_allows
    dryThrowLogGate sampleIntent [] [] throwingRule (some "boom") 0 3
    rfl rfl (by simp) rfl
  exact ⟨h.1, h.2 rfl⟩

/-- C1 (counterexample): the claim fails on two counts. First, on a gate
with no sync rules (so every sync rule passes through vacuously) and the
default `require-approval` decision, `evaluateAsync` never runs the
provided async rule — the sync chain's result is not `allow`, so the
early return fires — and returns the default decision rather than the
async rule's block. Second, on a dry-run gate whose sync chain allows,
the async rule's block decision does not determine the returned decision
either: `allow` is returned. -/
theorem evaluateAsync_sync_passthrough_counterexample :
    ((emptyGate.evaluateAsync sampleIntent [asyncBlockRule] 0 0).decision
        = Decisions.requireApproval (some "No rules matched") ∧
     (emptyGate.evaluateAsync sampleIntent [asyncBlockRule] 0 0).asyncInvoked = 0) ∧
    (dryAllowGate.evaluateAsync sampleIntent [asyncBlockRule] 0 0).decision
        = Decisions.allow := by
  refine ⟨⟨?_, ?_⟩, ?_⟩ <;> rfl

/-- C1 (amended): for every gate with `dryRun` false, every intent whose
synchronous rule chain evaluates to `allow`, and every non-empty list of
async rules, `evaluateAsync` runs the async rules strictly in order, the
first async rule returning a non-pass-through decision determines the
returned decision (no later async rule is awaited), and if all async
rules pass through, the gate's default decision is returned. -/
theorem evaluateAsync_async_chain_spec :
    (∀ (g : Gate) (i : TransactionIntent) (pre post : List AsyncRule)
        (r : AsyncRule) (d : Decision) (tStart tEnd : Int),
        g.dryRun = false → g.runRules i = Decisions.allow →
        (∀ q ∈ pre, q i = RuleOutcome.pass) → r i = RuleOutcome.decided d →
        (g.evaluateAsync i (pre ++ r :: post) tStart tEnd).decision = d ∧
        (g.evaluateAsync i (pre ++ r :: post) tStart tEnd).asyncInvoked
          = pre.length + 1) ∧
    (∀ (g : Gate) (i : TransactionIntent) (ars : List AsyncRule)
        (tStart tEnd : Int),
        ars ≠ [] → g.dryRun = false → g.runRules i = Decisions.allow →
        (∀ q ∈ ars, q i = RuleOutcome.pass) →
        (g.evaluateAsync i ars tStart tEnd).decision = g.defaultDecision ∧
        (g.evaluateAsync i ars tStart tEnd).asyncInvoked = ars.length) := by
  constructor
  · intro g i pre post r d tStart tEnd hdry hsync hpre hr
    have hrun := runAsyncRules_first_decided g.defaultDecision i pre post r d hpre hr
    constructor <;>
      simp [Gate.evaluateAsync, hsync, hdry, Decision.type, Decisions.allow, hrun]
  · intro g i ars tStart tEnd hne hdry hsync hall
    have hrun := runAsyncRules_all_pass g.defaultDecision i ars hall
    constructor <;>
      simp [Gate.evaluateAsync, hsync, hdry, Decision.type, Decisions.allow, hrun,
        List.length_eq_zero, hne]

/-- C1 (witness): on an enforcing gate whose sync chain allows, a single
blocking async rule is awaited and its decision is returned. -/
theorem evaluateAsync_async_chain_spec_witness :
    (allowGate.evaluateAsync sampleIntent [asyncBlockRule] 0 0).decision
      = Decisions.block "async verdict" ∧
    (allowGate.evaluateAsync sampleIntent [asyncBlockRule] 0 0).asyncInvoked = 1 :=
  evaluateAsync_async_chain_spec.1 allowGate sampleIntent [] [] asyncBlockRule
    (Decisions.block "async verdict") 0 0 rfl rfl (by simp) rfl

theorem rlGateStep_decision (maxCalls windowMs : Int) (perAgent : Bool)
    (st : RLState) (i : TransactionIntent) (now tEnd : Int) :
    (rlGateStep maxCalls windowMs perAgent st i now tEnd).1 =
      ((rateLimitStep maxCalls windowMs perAgent st i now).1).getD Decisions.allow := by
  cases h : (rateLimitStep maxCalls windowMs perAgent st i now).1 <;>
    simp [rlGateStep, rlGate, Gate.ofConfig, Gate.evaluate, Gate.runRules,
      runRulesFrom, rateLimitRule, allowAll, h]

theorem rateLimitStep_passes (maxCalls windowMs : Int) (perAgent : Bool)
    (st : RLState) (i : TransactionIntent) (now : Int) (l : List Int)
    (hl : rlPruned windowMs st (rateLimitKey perAgent i) now = l)
    (hlen : (l.length : Int) < maxCalls) :
    rateLimitStep maxCalls windowMs perAgent st i now
      = (none, rlSet st (rateLimitKey perAgent i) (l ++ [now])) := by
  unfold rateLimitStep
  simp only [hl]
  rw [if_neg (not_le.mpr hlen)]

theorem rateLimitStep_blocks (maxCalls windowMs : Int) (perAgent : Bool)
    (st : RLState) (i : TransactionIntent) (now : Int) (l : List Int)
    (hl : rlPruned windowMs st (rateLimitKey perAgent i) now = l)
    (hlen : maxCalls ≤ (l.length : Int)) :
    rateLimitStep maxCalls windowMs perAgent st i now
      = (some (Decisions.block (rateLimitBlockReason maxCalls windowMs
          (windowMs - (now - l.headD 0)))), st) := by
  unfold rateLimitStep
  simp only [hl]
  rw [if_pos hlen]

/-- C4: on the gate `[rateLimit({maxCalls: 2, windowMs: 60000}), allowAll()]`
(the configuration the repository's rate-limit tests use), three calls on
the same global key within the window yield allow, allow, block; and with
`perAgent: true`, calls from distinct agent ids never interfere: agent A's
third call within the window blocks while agent B's first call still
allows. -/
theorem rateLimit_gate_scenarios :
    (∀ (i1 i2 i3 : TransactionIntent) (t1 t2 t3 : Int),
        t1 ≤ t2 → t2 ≤ t3 → t3 - t1 < 60000 →
        rlGateSeq 2 60000 false [(i1, t1), (i2, t2), (i3, t3)] rlEmpty
          = [Decisions.allow, Decisions.allow,
             Decisions.block (rateLimitBlockReason 2 60000 (60000 - (t3 - t1)))]) ∧
    (∀ (a1 a2 a3 b : TransactionIntent) (t1 t2 t3 t4 : Int),
        a2.agentId = a1.agentId → a3.agentId = a1.agentId →
        b.agentId ≠ a1.agentId →
        t1 ≤ t2 → t2 ≤ t3 → t3 - t1 < 60000 →
        rlGateSeq 2 60000 true [(a1, t1), (a2, t2), (a3, t3), (b, t4)] rlEmpty
          = [Decisions.allow, Decisions.allow,
             Decisions.block (rateLimitBlockReason 2 60000 (60000 - (t3 - t1))),
             Decisions.allow]) := by
  constructor
  · intro i1 i2 i3 t1 t2 t3 h12 h23 h31
    have hd21 : t2 - t1 < 60000 := by omega
    have hd32 : t3 - t2 < 60000 := by omega
    have hstep1 : rateLimitStep 2 60000 false rlEmpty i1 t1
        = (none, rlSet rlEmpty "__global__" [t1]) := by
      have := rateLimitStep_passes 2 60000 false rlEmpty i1 t1 []
        (by simp [rlPruned, rlEmpty]) (by norm_num)
      simpa [rateLimitKey] using this
    have hstep2 : rateLimitStep 2 60000 false
        (rlSet rlEmpty "__global__" [t1]) i2 t2
        = (none, rlSet (rlSet rlEmpty "__global__" [t1]) "__global__" [t1, t2]) := by
      have := rateLimitStep_passes 2 60000 false
        (rlSet rlEmpty "__global__" [t1]) i2 t2 [t1]
        (by simp [rlPruned, rlSet, rateLimitKey, List.filter, decide_eq_true hd21])
        (by norm_num)
      simpa [rateLimitKey] using this
    have hstep3 : rateLimitStep 2 60000 false
        (rlSet (rlSet rlEmpty "__global__" [t1]) "__global__" [t1, t2]) i3 t3
        = (some (Decisions.block (rateLimitBlockReason 2 60000 (60000 - (t3 - t1)))),
           rlSet (rlSet rlEmpty "__global__" [t1]) "__global__" [t1, t2]) := by
      have := rateLimitStep_blocks 2 60000 false
        (rlSet (rlSet rlEmpty "__global__" [t1]) "__global__" [t1, t2]) i3 t3 [t1, t2]
        (by simp [rlPruned, rlSet, rateLimitKey, List.filter,
              decide_eq_true h31, decide_eq_true hd32])
        (by norm_num)
      simpa [rateLimitKey] using this
    simp only [rlGateSeq, rlGateStep_decision, hstep1, hstep2, hstep3]
    simp
  · intro a1 a2 a3 b t1 t2 t3 t4 ha2 ha3 hb h12 h23 h31
    have hd21 : t2 - t1 < 60000 := by omega
    have hd32 : t3 - t2 < 60000 := by omega
    have hstep1 : rateLimitStep 2 60000 true rlEmpty a1 t1
        = (none, rlSet rlEmpty a1.agentId [t1]) := by
      have := rateLimitStep_passes 2 60000 true rlEmpty a1 t1 []
        (by simp [rlPruned, rlEmpty]) (by norm_num)
      simpa [rateLimitKey] using this
    have hstep2 : rateLimitStep 2 60000 true
        (rlSet rlEmpty a1.agentId [t1]) a2 t2
        = (none, rlSet (rlSet rlEmpty a1.agentId [t1]) a1.agentId [t1, t2]) := by
      have := rateLimitStep_passes 2 60000 true
        (rlSet rlEmpty a1.agentId [t1]) a2 t2 [t1]
        (by simp [rlPruned, rlSet, rateLimitKey, ha2, List.filter,
              decide_eq_true hd21])
        (by norm_num)
      simpa [rateLimitKey, ha2] using this
    have hstep3 : rateLimitStep 2 60000 true
        (rlSet (rlSet rlEmpty a1.agentId [t1]) a1.agentId [t1, t2]) a3 t3
        = (some (Decisions.block (rateLimitBlockReason 2 60000 (60000 - (t3 - t1)))),
           rlSet (rlSet rlEmpty a1.agentId [t1]) a1.agentId [t1, t2]) := by
      have := rateLimitStep_blocks 2 60000 true
        (rlSet (rlSet rlEmpty a1.agentId [t1]) a1.agentId [t1, t2]) a3 t3 [t1, t2]
        (by simp [rlPruned, rlSet, rateLimitKey, ha3, List.filter,
              decide_eq_true h31, decide_eq_true hd32])
        (by norm_num)
      simpa [rateLimitKey, ha3] using this
    have hstep4 : rateLimitStep 2 60000 true
        (rlSet (rlSet rlEmpty a1.agentId [t1]) a1.agentId [t1, t2]) b t4
        = (none, rlSet (rlSet (rlSet rlEmpty a1.agentId [t1]) a1.agentId [t1, t2])
            b.agentId [t4]) := by
      have := rateLimitStep_passes 2 60000 true
        (rlSet (rlSet rlEmpty a1.agentId [t1]) a1.agentId [t1, t2]) b t4 []
        (by simp [rlPruned, rlSet, rateLimitKey, rlEmpty, hb]) (by norm_num)
      simpa [rateLimitKey] using this
    simp only [rlGateSeq, rlGateStep_decision, hstep1, hstep2, hstep3, hstep4]
    simp

/-- C4 (witness): the two scenarios at concrete clock readings 0, 1, 2
(and agent B's call at 3). -/
theorem rateLimit_gate_scenarios_witness :
    rlGateSeq 2 60000 false
        [(sampleIntent, 0), (sampleIntent, 1), (sampleIntent, 2)] rlEmpty
      = [Decisions.allow, Decisions.allow,
         Decisions.block (rateLimitBlockReason 2 60000 59998)] ∧
    rlGateSeq 2 60000 true
        [(sampleIntent, 0), (sampleIntent, 1), (sampleIntent, 2),
         (otherAgentIntent, 3)] rlEmpty
      = [Decisions.allow, Decisions.allow,
         Decisions.block (rateLimitBlockReason 2 60000 59998),
         Decisions.allow] :=
  ⟨rateLimit_gate_scenarios.1 sampleIntent sampleIntent sampleIntent 0 1 2
    (by norm_num) (by norm_num) (by norm_num),
   rateLimit_gate_scenarios.2 sampleIntent sampleIntent sampleIntent
    otherAgentIntent 0 1 2 3 rfl rfl (by decide)
    (by norm_num) (by norm_num) (by norm_num)⟩

theorem rateLimitStep_preserves_bound (maxCalls windowMs : Int)
    (perAgent : Bool) (st : RLState) (i : TransactionIntent) (now : Int)
    (hinv : ∀ k, ((st k).length : Int) ≤ maxCalls) :
    ∀ k, (((rateLimitStep maxCalls windowMs perAgent st i now).2 k).length : Int)
      ≤ maxCalls := by
  intro k
  by_cases h : maxCalls
      ≤ ((rlPruned windowMs st (rateLimitKey perAgent i) now).length : Int)
  · rw [rateLimitStep_blocks maxCalls windowMs perAgent st i now _ rfl h]
    exact hinv k
  · push_neg at h
    rw [rateLimitStep_passes maxCalls windowMs perAgent st i now _ rfl h]
    by_cases hk : k = rateLimitKey perAgent i
    · subst hk
      have hlen : (rlPruned windowMs st (rateLimitKey perAgent i) now
            ++ [now]).length
          = (rlPruned windowMs st (rateLimitKey perAgent i) now).length + 1 := by
        simp
      simp only [rlSet, eq_self_iff_true, if_true]
      rw [hlen]
      push_cast
      omega
    · simp only [rlSet, if_neg hk]
      exact hinv k

/-- C6: for every `rateLimit` rule constructed with `maxCalls > 0` and
`windowMs > 0` and every sequence of invocations, the stored timestamp
sequence for any key never exceeds `maxCalls` entries; moreover on every
pass-through invocation the expired timestamps are pruned before the
append and the append happens only when the pruned count is below
`maxCalls`. -/
theorem rateLimit_window_bounded (maxCalls windowMs : Int) (perAgent : Bool)
    (hmax : 0 < maxCalls) (hwin : 0 < windowMs) :
    (∀ (calls : List (TransactionIntent × Int)) (key : String),
        ((rateLimitRun maxCalls windowMs perAgent calls key).length : Int)
          ≤ maxCalls) ∧
    (∀ (st : RLState) (i : TransactionIntent) (now : Int),
        (rateLimitStep maxCalls windowMs perAgent st i now).1 = none →
        (rateLimitStep maxCalls windowMs perAgent st i now).2
            (rateLimitKey perAgent i)
          = rlPruned windowMs st (rateLimitKey perAgent i) now ++ [now] ∧
        ((rlPruned windowMs st (rateLimitKey perAgent i) now).length : Int)
          < maxCalls) := by
  constructor
  · have aux : ∀ (calls : List (TransactionIntent × Int)) (st : RLState),
        (∀ k, ((st k).length : Int) ≤ maxCalls) →
        ∀ k, ((calls.foldl
            (fun s c => (rateLimitStep maxCalls windowMs perAgent s c.1 c.2).2)
            st k).length : Int) ≤ maxCalls := by
      intro calls
      induction calls with
      | nil => intro st hst k; simpa using hst k
      | cons c rest ih =>
        intro st hst k
        exact ih _
          (rateLimitStep_preserves_bound maxCalls windowMs perAgent st c.1 c.2 hst) k
    intro calls key
    exact aux calls rlEmpty (fun k => by simp [rlEmpty]; omega) key
  · intro st i now h1
    by_cases h : maxCalls
        ≤ ((rlPruned windowMs st (rateLimitKey perAgent i) now).length : Int)
    · rw [rateLimitStep_blocks maxCalls windowMs perAgent st i now _ rfl h] at h1
      simp at h1
    · push_neg at h
      rw [rateLimitStep_passes maxCalls windowMs perAgent st i now _ rfl h]
      exact ⟨by simp [rlSet], h⟩

/-- C6 (witness): after three same-key invocations of the
`maxCalls = 2, windowMs = 60000` limiter, the stored global sequence has
at most 2 entries. -/
theorem rateLimit_window_bounded_witness :
    ((rateLimitRun 2 60000 false
        [(sampleIntent, 0), (sampleIntent, 1), (sampleIntent, 2)]
        "__global__").length : Int) ≤ 2 :=
  (rateLimit_window_bounded 2 60000 false (by norm_num) (by norm_num)).1
    [(sampleIntent, 0), (sampleIntent, 1), (sampleIntent, 2)] "__global__"

/-- C10: a `rateLimit` invocation that returns a block decision leaves the
limiter's stored window state exactly unchanged — the current timestamp
is not appended and the pruned sequence is not written back; only a
pass-through invocation stores the pruned sequence with the current
timestamp appended. -/
theorem rateLimit_block_preserves_state (maxCalls windowMs : Int)
    (perAgent : Bool) (st : RLState) (i : TransactionIntent) (now : Int) :
    (∀ d : Decision,
        (rateLimitStep maxCalls windowMs perAgent st i now).1 = some d →
        (rateLimitStep maxCalls windowMs perAgent st i now).2 = st) ∧
    ((rateLimitStep maxCalls windowMs perAgent st i now).1 = none →
        (rateLimitStep maxCalls windowMs perAgent st i now).2
          = rlSet st (rateLimitKey perAgent i)
              (rlPruned windowMs st (rateLimitKey perAgent i) now ++ [now])) := by
  by_cases h : maxCalls
      ≤ ((rlPruned windowMs st (rateLimitKey perAgent i) now).length : Int)
  · rw [rateLimitStep_blocks maxCalls windowMs perAgent st i now _ rfl h]
    exact ⟨fun d _ => rfl, fun hnone => by simp at hnone⟩
  · push_neg at h
    rw [rateLimitStep_passes maxCalls windowMs perAgent st i now _ rfl h]
    exact ⟨fun d hd => by simp at hd, fun _ => rfl⟩

/-- C10 (witness): a blocked invocation (`maxCalls = 1`, one fresh
timestamp already stored) leaves the map unchanged. -/
theorem rateLimit_block_preserves_state_witness :
    (rateLimitStep 1 10 false (rlSet rlEmpty "__global__" [0]) sampleIntent 5).2
      = rlSet rlEmpty "__global__" [0] :=
  (rateLimit_block_preserves_state 1 10 false (rlSet rlEmpty "__global__" [0])
      sampleIntent 5).1
    (Decisions.block (rateLimitBlockReason 1 10 5)) (by decide)

/-- C8: `createIntent` fails with a validation error naming the empty
field when `agentId` or `target` is empty or whitespace-only, and
otherwise returns the intent carrying the trimmed `agentId` and
`target`. -/
theorem createIntent_validation (agentId : String) (tool : ToolType)
    (target : String) (metadata : Option IntentMetadata) (now : Int) :
    (jsTrim agentId = "" →
      createIntent agentId tool target metadata now
        = Except.error "createIntent: agentId must not be empty") ∧
    (jsTrim agentId ≠ "" → jsTrim target = "" →
      createIntent agentId tool target metadata now
        = Except.error "createIntent: target must not be empty") ∧
    (jsTrim agentId ≠ "" → jsTrim target ≠ "" →
      createIntent agentId tool target metadata now
        = Except.ok
            { agentId := jsTrim agentId
              tool := tool
              target := jsTrim target
              metadata := some (mergeMetadata now metadata) }) := by
  refine ⟨?_, ?_, ?_⟩
  · intro h
    simp [createIntent, h]
  · intro ha ht
    have ha' : ¬(agentId = "" ∨ jsTrim agentId = "") := by
      rintro (h | h)
      · exact ha (by subst h; rfl)
      · exact ha h
    have htor : target = "" ∨ jsTrim target = "" := Or.inr ht
    simp [createIntent, ha', htor]
  · intro ha ht
    have ha' : ¬(agentId = "" ∨ jsTrim agentId = "") := by
      rintro (h | h)
      · exact ha (by subst h; rfl)
      · exact ha h
    have ht' : ¬(target = "" ∨ jsTrim target = "") := by
      rintro (h | h)
      · exact ht (by subst h; rfl)
      · exact ht h
    simp [createIntent, ha', ht']

/-- C8 (witness): empty `agentId` and whitespace-only `target` fail with
the field-naming errors; padded inputs come back trimmed. -/
theorem createIntent_validation_witness :
    createIntent "" ToolType.exec "ls" none 0
      = Except.error "createIntent: agentId must not be empty" ∧
    createIntent "agent-1" ToolType.exec "   " none 0
      = Except.error "createIntent: target must not be empty" ∧
    createIntent "  agent-1  " ToolType.exec "  ls  " none 0
      = Except.ok
          { agentId := "agent-1"
            tool := ToolType.exec
            target := "ls"
            metadata := some
              { timestamp := some 0, sessionId := none, reason := none } } :=
  ⟨(createIntent_validation "" ToolType.exec "ls" none 0).1 (by decide),
   (createIntent_validation "agent-1" ToolType.exec "   " none 0).2.1
     (by decide) (by decide),
   (createIntent_validation "  agent-1  " ToolType.exec "  ls  " none 0).2.2
     (by decide) (by decide)⟩

/-- C7: for every `AuditLogger` configuration and log entry, a write that
throws synchronously or rejects asynchronously never propagates out of
`log()`; the error, coerced with
`err instanceof Error ? err : new Error(String(err))`, is delivered to
the configured `onError` callback (that exact error when it was an
`Error` instance), and with no `onError` configured it goes to the
default no-op and is discarded. -/
theorem auditLogger_write_failure_routed (cfg : AuditLoggerCfg)
    (entry : LogEntry) (freshId : String) (w : WriteBehavior) (e : JsError)
    (hw : w = WriteBehavior.throwsSync e ∨ w = WriteBehavior.asyncRejects e) :
    (AuditLogger.log cfg entry freshId w).raised = none ∧
    (AuditLogger.log cfg entry freshId w).onErrorReceived = some (toJsError e) ∧
    (cfg.hasOnError = true →
      (AuditLogger.log cfg entry freshId w).onErrorCallbackReceived
        = some (toJsError e)) ∧
    (cfg.hasOnError = false →
      (AuditLogger.log cfg entry freshId w).onErrorCallbackReceived = none) ∧
    (∀ m : String, e = JsError.errorInst m → toJsError e = e) := by
  rcases hw with h | h <;> subst h <;>
    exact ⟨rfl, rfl,
      fun hc => by simp [AuditLogger.log, hc],
      fun hc => by simp [AuditLogger.log, hc],
      fun m hm => by subst hm; rfl⟩

/-- C7 (witness): an adapter throwing `Error("disk full")` does not raise
out of `log()` and the configured callback receives that error. -/
theorem auditLogger_write_failure_routed_witness :
    (AuditLogger.log onErrorCfg sampleEntry "id-1"
        (WriteBehavior.throwsSync (JsError.errorInst "disk full"))).raised
      = none ∧
    (AuditLogger.log onErrorCfg sampleEntry "id-1"
        (WriteBehavior.throwsSync (JsError.errorInst "disk full"))).onErrorCallbackReceived
      = some (JsError.errorInst "disk full") := by
  have h := auditLogger_write_failure_routed onErrorCfg sampleEntry "id-1"
    (WriteBehavior.throwsSync (JsError.errorInst "disk full"))
    (JsError.errorInst "disk full") (Or.inl rfl)
  exact ⟨h.1, h.2.2.1 rfl⟩

end SamGuard
